import Mathlib

/-!
Verification development for the background-check bot (`src/index.js`).

The file shallowly embeds the core of the program:

* `safeAxiosGet` — the rate-limit-safe cached GET (lines 34–54), modelled as a
  state-passing function over an explicit cache, a remote-call counter and an
  accumulated backoff-delay counter; the remote endpoint is modelled as a
  function from the global remote-call index to a response.
* `getUserId` — the username → id lookup with its recursive 429 retry
  (lines 59–78); its upstream is a finite list of responses consumed one per
  POST attempt (`none` means the scenario ran out of scripted responses).
* `getUserDetails`, `getFriendsCount`, `getGroupsCount` — the three profile
  fetchers (lines 80–93).
* `calculateAccountAge` (lines 95–100) and `createResultsEmbed`
  (lines 103–125), the pure evaluation layer.
* `runBackgroundCheck` — the body of the `interactionCreate` handler's try
  block (lines 162–183), with the `Promise.all` fan-out modelled as the three
  calls run in start order, all to completion, joined by `promiseAll3`.

Errors are plain strings, as in the JavaScript source where every failure is an
`Error` distinguished only by its message.
-/

deriving instance DecidableEq for Except

namespace BgcBot

/-- A remote response payload.  The JS code reads `res.data.name` and
`res.data.created` from the user-details endpoint and `res.data.data.length`
from the friends/groups endpoints; `created` is kept as a millisecond
timestamp and `dataLen` as the length of the `data.data` array. -/
structure Response where
  name : String
  created : Int
  dataLen : Nat
deriving DecidableEq, Repr

/-- Outcome of one remote GET attempt as seen by `safeAxiosGet`'s
`try`/`catch`: a successful response, a rejection whose `response.status`
is 429, or any other rejection carrying its error message. -/
inductive GetResp where
  | success (r : Response)
  | rateLimited
  | fail (msg : String)
deriving DecidableEq, Repr

/-- The mutable state threaded through the fetch layer: the process-wide
`cache` Map (an association list keyed by URL), the number of remote calls
performed so far, and the total backoff delay waited so far (ms). -/
structure FetchSt where
  cache : List (String × Response)
  remoteCalls : Nat
  delayMs : Nat
deriving DecidableEq, Repr

/-- `cache.has(url)` / `cache.get(url)` on the association-list model. -/
def cacheLookup : List (String × Response) → String → Option Response
  | [], _ => none
  | (k, v) :: rest, url => if k = url then some v else cacheLookup rest url

/-- The error message thrown after the retry loop exhausts
(`Failed after ${retries} retries for URL: ${url}`, line 53). -/
def retriesMsg (retries : Nat) (url : String) : String :=
  s!"Failed after {retries} retries for URL: {url}"

/-- The body of `safeAxiosGet`'s `for` loop (lines 35–52), with the remaining
iteration count as fuel.  Each iteration checks the cache, otherwise performs
the remote call (indexed by the global remote-call counter): a success is
cached and returned, a 429 adds the backoff delay and continues the loop, and
any other error is thrown at once.  When the fuel runs out the
`Failed after … retries` error is thrown. -/
def safeAxiosGetLoop (upstream : Nat → GetResp) (url : String)
    (retriesTotal delay : Nat) : Nat → FetchSt → Except String Response × FetchSt
  | 0, s => (.error (retriesMsg retriesTotal url), s)
  | n + 1, s =>
    match cacheLookup s.cache url with
    | some r => (.ok r, s)
    | none =>
      match upstream s.remoteCalls with
      | .success r =>
          (.ok r, { s with cache := (url, r) :: s.cache,
                           remoteCalls := s.remoteCalls + 1 })
      | .rateLimited =>
          safeAxiosGetLoop upstream url retriesTotal delay n
            { s with remoteCalls := s.remoteCalls + 1,
                     delayMs := s.delayMs + delay }
      | .fail msg => (.error msg, { s with remoteCalls := s.remoteCalls + 1 })

/-- `safeAxiosGet(url, retries, delay)` (lines 34–54).  The JS defaults are
`retries = 3`, `delay = 3000`. -/
def safeAxiosGet (upstream : Nat → GetResp) (url : String)
    (retries delay : Nat) (s : FetchSt) : Except String Response × FetchSt :=
  safeAxiosGetLoop upstream url retries delay retries s

/-- Default-argument form of `safeAxiosGet` (`retries = 3, delay = 3000`). -/
def safeAxiosGetD (upstream : Nat → GetResp) (url : String) (s : FetchSt) :
    Except String Response × FetchSt :=
  safeAxiosGet upstream url 3 3000 s

example :
    safeAxiosGetD (fun _ => .rateLimited) "u" ⟨[], 0, 0⟩ =
      (.error "Failed after 3 retries for URL: u", ⟨[], 3, 9000⟩) := by
  decide

example :
    safeAxiosGetD (fun _ => .success ⟨"bob", 5, 2⟩) "u" ⟨[], 0, 0⟩ =
      (.ok ⟨"bob", 5, 2⟩, ⟨[("u", ⟨"bob", 5, 2⟩)], 1, 0⟩) := by
  decide

/-- Outcome of one POST to the username-lookup endpoint as seen by
`getUserId`'s `try`/`catch`: a successful batch response carrying the list of
matched user ids (`res.data.data`, each entry read through `.id`), a rejection
whose `response.status` is 429, or any other rejection with its message. -/
inductive LookupResp where
  | success (ids : List Nat)
  | rateLimited
  | fail (msg : String)
deriving DecidableEq, Repr

/-- The message of the error thrown when the batch result is empty
(`User "${username}" not found`, line 66). -/
def notFoundMsg (username : String) : String :=
  s!"User \"{username}\" not found"

/-- The wrapping applied by `getUserId`'s catch block to any non-429 error
(`Failed to get user ID for "${username}": ${err.message}`, line 76). -/
def wrapMsg (username cause : String) : String :=
  s!"Failed to get user ID for \"{username}\": {cause}"

/-- Result of a `getUserId` run: the returned id or thrown error message,
together with the number of POST attempts made and the total retry delay
waited (ms). -/
structure LookupOutcome where
  result : Except String Nat
  attempts : Nat
  delayMs : Nat
deriving DecidableEq, Repr

/-- `getUserId(username)` (lines 59–78).  The upstream is a finite script of
responses, one consumed per POST attempt; `none` means the script ran out.
A successful response with an empty `data` array raises the not-found error,
which the function's own catch block then wraps (it has no `response` field,
so the 429 branch does not apply).  A 429 rejection waits 3000 ms and
re-enters the whole function on the rest of the script; errors thrown by that
recursive call propagate from inside the catch block without being wrapped
again.  Any other rejection is wrapped and thrown. -/
def getUserId (username : String) : List LookupResp → Option LookupOutcome
  | [] => none
  | .success ids :: _ =>
    match ids with
    | [] => some ⟨.error (wrapMsg username (notFoundMsg username)), 1, 0⟩
    | id :: _ => some ⟨.ok id, 1, 0⟩
  | .rateLimited :: rest =>
    (getUserId username rest).map fun o => ⟨o.result, o.attempts + 1, o.delayMs + 3000⟩
  | .fail msg :: _ => some ⟨.error (wrapMsg username msg), 1, 0⟩

/-- URL of the user-details endpoint (line 81). -/
def userDetailsUrl (userId : Nat) : String :=
  s!"https://users.roblox.com/v1/users/{userId}"

/-- URL of the friends endpoint (line 86). -/
def friendsUrl (userId : Nat) : String :=
  s!"https://friends.roblox.com/v1/users/{userId}/friends"

/-- URL of the groups endpoint (line 91). -/
def groupsUrl (userId : Nat) : String :=
  s!"https://groups.roblox.com/v1/users/{userId}/groups/roles"

/-- `getUserDetails(userId)` (lines 80–83): fetch through `safeAxiosGet` and
return `res.data`. -/
def getUserDetails (upstream : Nat → GetResp) (userId : Nat) (s : FetchSt) :
    Except String Response × FetchSt :=
  safeAxiosGetD upstream (userDetailsUrl userId) s

/-- `getFriendsCount(userId)` (lines 85–88): fetch through `safeAxiosGet` and
return `res.data.data.length`. -/
def getFriendsCount (upstream : Nat → GetResp) (userId : Nat) (s : FetchSt) :
    Except String Nat × FetchSt :=
  let p := safeAxiosGetD upstream (friendsUrl userId) s
  (p.1.map Response.dataLen, p.2)

/-- `getGroupsCount(userId)` (lines 90–93): fetch through `safeAxiosGet` and
return `res.data.data.length`. -/
def getGroupsCount (upstream : Nat → GetResp) (userId : Nat) (s : FetchSt) :
    Except String Nat × FetchSt :=
  let p := safeAxiosGetD upstream (groupsUrl userId) s
  (p.1.map Response.dataLen, p.2)

/-- Milliseconds in a day, the divisor `1000 * 60 * 60 * 24` of line 98. -/
def msPerDay : Nat := 1000 * 60 * 60 * 24

/-- `calculateAccountAge(createdDate)` (lines 95–100):
`Math.ceil(Math.abs(now - created) / 86400000)`.  Times are millisecond
timestamps; the real-valued `Math.ceil` of the quotient of the nonnegative
integer `|now - created|` by `msPerDay` is the ceiling division
`(d + msPerDay - 1) / msPerDay` (the equivalence with the rational ceiling is
proved in `calculateAccountAge_is_ceiling`). -/
def calculateAccountAge (nowMs createdMs : Int) : Nat :=
  ((nowMs - createdMs).natAbs + msPerDay - 1) / msPerDay

/-- Threshold `minAge = 90` (line 104). -/
def minAge : Int := 90

/-- Threshold `minFriends = 20` (line 105). -/
def minFriends : Int := 20

/-- Threshold `minGroups = 30` (line 106). -/
def minGroups : Int := 30

/-- The four booleans computed at lines 108–112: the three per-criterion
verdicts and their conjunction. -/
structure Verdicts where
  ageMet : Bool
  friendsMet : Bool
  groupsMet : Bool
  passed : Bool
deriving DecidableEq, Repr

/-- Lines 108–112 of `createResultsEmbed`: each criterion is `measured >=
threshold` and `passed` is the `&&` of the three. -/
def evalVerdicts (accountAge friendsCount groupsCount : Int) : Verdicts :=
  let ageMet : Bool := accountAge ≥ minAge
  let friendsMet : Bool := friendsCount ≥ minFriends
  let groupsMet : Bool := groupsCount ≥ minGroups
  ⟨ageMet, friendsMet, groupsMet, ageMet && friendsMet && groupsMet⟩

/-- The `✅`/`❌` mark prefixed to each criterion line. -/
def checkMark (b : Bool) : String := if b then "✅" else "❌"

/-- The embed value built at lines 114–124, as data: title, colour, the four
`(name, value)` fields in order, and the footer text.  The timestamp set by
`setTimestamp()` is wall-clock time and is not modelled. -/
structure ResultsEmbed where
  title : String
  color : Nat
  fields : List (String × String)
  footer : String
deriving DecidableEq, Repr

/-- `createResultsEmbed(username, accountAge, friendsCount, groupsCount)`
(lines 103–125). -/
def createResultsEmbed (username : String)
    (accountAge friendsCount groupsCount : Int) : ResultsEmbed :=
  let v := evalVerdicts accountAge friendsCount groupsCount
  let ageMark := checkMark v.ageMet
  let friendsMark := checkMark v.friendsMet
  let groupsMark := checkMark v.groupsMet
  { title := s!"Background Check - {username}"
    color := if v.passed then 0x00FF00 else 0xFF0000
    fields := [
      ("Account Age", s!"{ageMark} {accountAge} days (min {minAge})"),
      ("Friends", s!"{friendsMark} {friendsCount} friends (min {minFriends})"),
      ("Groups", s!"{groupsMark} {groupsCount} groups (min {minGroups})"),
      ("Overall Status", if v.passed then "🟢 PASSED" else "🔴 FAILED")]
    footer := "Background Check System" }

/-- `Promise.all` over the three fan-out results: the joined value when all
three fulfilled, otherwise the first rejection in start order (under the
deterministic schedule used here, completion order coincides with start
order). -/
def promiseAll3 :
    Except String Response → Except String Nat → Except String Nat →
      Except String (Response × Nat × Nat)
  | .error e, _, _ => .error e
  | .ok _, .error e, _ => .error e
  | .ok _, .ok _, .error e => .error e
  | .ok d, .ok f, .ok g => .ok (d, f, g)

/-- The `Promise.all` fan-out of lines 168–172: the three calls are issued in
source order (details, friends, groups); each runs to completion — a
rejected sibling does not abort the others — and the results are joined by
`promiseAll3`. -/
def aggregate (upstream : Nat → GetResp) (userId : Nat) (s : FetchSt) :
    Except String (Response × Nat × Nat) × FetchSt :=
  let p1 := getUserDetails upstream userId s
  let p2 := getFriendsCount upstream userId p1.2
  let p3 := getGroupsCount upstream userId p2.2
  (promiseAll3 p1.1 p2.1 p3.1, p3.2)

/-- The body of the `interactionCreate` handler's try block (lines 162–183):
resolve the username, fan out the three profile calls, compute the account
age and build the embed; any thrown error is caught and reported as a single
error message.  Returns `none` only when the lookup script runs out. -/
def runBackgroundCheck (lookup : List LookupResp) (upstream : Nat → GetResp)
    (username : String) (nowMs : Int) (s : FetchSt) :
    Option (Except String ResultsEmbed × FetchSt) :=
  match getUserId username lookup with
  | none => none
  | some o =>
    match o.result with
    | .error e => some (.error e, s)
    | .ok userId =>
      let p := aggregate upstream userId s
      match p.1 with
      | .error e => some (.error e, p.2)
      | .ok (details, friendsCount, groupsCount) =>
        let accountAge := calculateAccountAge nowMs details.created
        some (.ok (createResultsEmbed details.name (accountAge : Int)
          (friendsCount : Int) (groupsCount : Int)), p.2)

/-- C2: with the default configuration (3 attempts, 3000 ms backoff), a call
for an uncached key whose remote endpoint signals rate-limit on every attempt
fails with the retries-exhausted error naming the request key after exactly
3 remote attempts, having waited the fixed 3000 ms backoff after each
rate-limited attempt (so in particular between consecutive attempts). -/
theorem safeAxiosGet_retries_exhausted (upstream : Nat → GetResp) (url : String)
    (s : FetchSt) (hmiss : cacheLookup s.cache url = none)
    (h429 : ∀ k, upstream k = GetResp.rateLimited) :
    safeAxiosGetD upstream url s =
      (.error (retriesMsg 3 url),
        { s with remoteCalls := s.remoteCalls + 3,
                 delayMs := s.delayMs + 3 * 3000 }) := by
  simp only [safeAxiosGetD, safeAxiosGet, safeAxiosGetLoop, hmiss, h429]

/-- Witness for `safeAxiosGet_retries_exhausted` at a concrete always-429
upstream and the empty cache. -/
theorem safeAxiosGet_retries_exhausted_witness :
    safeAxiosGetD (fun _ => GetResp.rateLimited) "u" ⟨[], 0, 0⟩ =
      (.error (retriesMsg 3 "u"), ⟨[], 0 + 3, 0 + 3 * 3000⟩) :=
  safeAxiosGet_retries_exhausted (fun _ => GetResp.rateLimited) "u" ⟨[], 0, 0⟩
    rfl (fun _ => rfl)

/-- C3: for an uncached key whose first remote call succeeds, issuing the
Fetch Client twice sequentially performs exactly one remote call: the first
call fetches and stores the response, the second finds the key in the cache
and returns the stored response leaving the state (in particular the
remote-call counter) untouched. -/
theorem safeAxiosGet_cache_idempotent (upstream : Nat → GetResp) (url : String)
    (s : FetchSt) (r : Response) (hmiss : cacheLookup s.cache url = none)
    (hup : upstream s.remoteCalls = GetResp.success r) :
    safeAxiosGetD upstream url s =
      (.ok r, { s with cache := (url, r) :: s.cache,
                       remoteCalls := s.remoteCalls + 1 }) ∧
    safeAxiosGetD upstream url
        { s with cache := (url, r) :: s.cache, remoteCalls := s.remoteCalls + 1 } =
      (.ok r, { s with cache := (url, r) :: s.cache,
                       remoteCalls := s.remoteCalls + 1 }) := by
  constructor
  · simp [safeAxiosGetD, safeAxiosGet, safeAxiosGetLoop, hmiss, hup]
  · simp [safeAxiosGetD, safeAxiosGet, safeAxiosGetLoop, cacheLookup]

/-- Witness for `safeAxiosGet_cache_idempotent` at a concrete upstream. -/
theorem safeAxiosGet_cache_idempotent_witness :
    safeAxiosGetD (fun _ => GetResp.success ⟨"bob", 5, 2⟩) "u" ⟨[], 0, 0⟩ =
      (.ok ⟨"bob", 5, 2⟩, ⟨[("u", ⟨"bob", 5, 2⟩)], 0 + 1, 0⟩) ∧
    safeAxiosGetD (fun _ => GetResp.success ⟨"bob", 5, 2⟩) "u"
        ⟨[("u", ⟨"bob", 5, 2⟩)], 0 + 1, 0⟩ =
      (.ok ⟨"bob", 5, 2⟩, ⟨[("u", ⟨"bob", 5, 2⟩)], 0 + 1, 0⟩) :=
  safeAxiosGet_cache_idempotent (fun _ => GetResp.success ⟨"bob", 5, 2⟩) "u"
    ⟨[], 0, 0⟩ ⟨"bob", 5, 2⟩ rfl rfl

/-- C9: a remote request for an uncached key that fails with anything other
than a rate-limit signal propagates that error to the caller on the first
attempt: exactly one remote call is made, no retry happens, and the
accumulated backoff delay (and the cache) are unchanged. -/
theorem safeAxiosGet_fail_fast (upstream : Nat → GetResp) (url : String)
    (s : FetchSt) (msg : String) (hmiss : cacheLookup s.cache url = none)
    (hfail : upstream s.remoteCalls = GetResp.fail msg) :
    safeAxiosGetD upstream url s =
      (.error msg, { s with remoteCalls := s.remoteCalls + 1 }) := by
  simp [safeAxiosGetD, safeAxiosGet, safeAxiosGetLoop, hmiss, hfail]

/-- Witness for `safeAxiosGet_fail_fast` at a concrete failing upstream. -/
theorem safeAxiosGet_fail_fast_witness :
    safeAxiosGetD (fun _ => GetResp.fail "ECONNRESET") "u" ⟨[], 0, 0⟩ =
      (.error "ECONNRESET", ⟨[], 0 + 1, 0⟩) :=
  safeAxiosGet_fail_fast (fun _ => GetResp.fail "ECONNRESET") "u" ⟨[], 0, 0⟩
    "ECONNRESET" rfl rfl

/-- On every run of the retry loop that ends in a thrown error, the cache
field of the state is left exactly as it was. -/
lemma safeAxiosGetLoop_error_cache (upstream : Nat → GetResp) (url : String)
    (retriesTotal delay : Nat) :
    ∀ (fuel : Nat) (s : FetchSt) (e : String),
      (safeAxiosGetLoop upstream url retriesTotal delay fuel s).1 = .error e →
      (safeAxiosGetLoop upstream url retriesTotal delay fuel s).2.cache = s.cache := by
  intro fuel
  induction fuel with
  | zero => intro s e _; rfl
  | succ n ih =>
    intro s e h
    rcases hc : cacheLookup s.cache url with _ | r
    · rcases hu : upstream s.remoteCalls with r | _ | msg
      · simp [safeAxiosGetLoop, hc, hu] at h
      · simp only [safeAxiosGetLoop, hc, hu] at h ⊢
        exact ih _ e h
      · simp [safeAxiosGetLoop, hc, hu]
    · simp [safeAxiosGetLoop, hc]

/-- On every run of the retry loop that returns a response, the cache is
either untouched (a cache hit) or extended with exactly the returned
response bound to the requested key. -/
lemma safeAxiosGetLoop_ok_cache (upstream : Nat → GetResp) (url : String)
    (retriesTotal delay : Nat) :
    ∀ (fuel : Nat) (s : FetchSt) (r : Response),
      (safeAxiosGetLoop upstream url retriesTotal delay fuel s).1 = .ok r →
      (safeAxiosGetLoop upstream url retriesTotal delay fuel s).2.cache = s.cache ∨
      (safeAxiosGetLoop upstream url retriesTotal delay fuel s).2.cache =
        (url, r) :: s.cache := by
  intro fuel
  induction fuel with
  | zero => intro s r h; simp [safeAxiosGetLoop] at h
  | succ n ih =>
    intro s r h
    rcases hc : cacheLookup s.cache url with _ | r0
    · rcases hu : upstream s.remoteCalls with r1 | _ | msg
      · simp only [safeAxiosGetLoop, hc, hu] at h ⊢
        cases h
        right; rfl
      · simp only [safeAxiosGetLoop, hc, hu] at h ⊢
        exact ih _ r h
      · simp [safeAxiosGetLoop, hc, hu] at h
    · simp only [safeAxiosGetLoop, hc] at h ⊢
      exact Or.inl trivial

/-- C10: the Fetch Client writes to the shared cache only after a remote call
for the key has succeeded.  Whatever the retry budget, a run that throws
leaves the cache exactly as it found it, and a run that returns a response
either read it from the cache (cache untouched) or binds the requested key to
precisely the successful response — so no key is ever bound on a failure
path. -/
theorem safeAxiosGet_cache_write_only_on_success (upstream : Nat → GetResp)
    (url : String) (retries delay : Nat) (s : FetchSt) :
    (∀ e, (safeAxiosGet upstream url retries delay s).1 = .error e →
      (safeAxiosGet upstream url retries delay s).2.cache = s.cache) ∧
    (∀ r, (safeAxiosGet upstream url retries delay s).1 = .ok r →
      (safeAxiosGet upstream url retries delay s).2.cache = s.cache ∨
      (safeAxiosGet upstream url retries delay s).2.cache = (url, r) :: s.cache) :=
  ⟨fun e h => safeAxiosGetLoop_error_cache upstream url retries delay retries s e h,
   fun r h => safeAxiosGetLoop_ok_cache upstream url retries delay retries s r h⟩

/-- Witness for `safeAxiosGet_cache_write_only_on_success`: a run that
exhausts its retries on a persistently rate-limited upstream leaves the cache
empty, and a successful run binds the key to the returned response. -/
theorem safeAxiosGet_cache_write_only_on_success_witness :
    (safeAxiosGet (fun _ => GetResp.rateLimited) "u" 3 3000 ⟨[], 0, 0⟩).2.cache = [] ∧
    ((safeAxiosGet (fun _ => GetResp.success ⟨"bob", 5, 2⟩) "u" 3 3000 ⟨[], 0, 0⟩).2.cache = [] ∨
     (safeAxiosGet (fun _ => GetResp.success ⟨"bob", 5, 2⟩) "u" 3 3000 ⟨[], 0, 0⟩).2.cache =
       [("u", ⟨"bob", 5, 2⟩)]) :=
  ⟨(safeAxiosGet_cache_write_only_on_success (fun _ => GetResp.rateLimited) "u"
      3 3000 ⟨[], 0, 0⟩).1 (retriesMsg 3 "u") (by decide),
   (safeAxiosGet_cache_write_only_on_success (fun _ => GetResp.success ⟨"bob", 5, 2⟩) "u"
      3 3000 ⟨[], 0, 0⟩).2 ⟨"bob", 5, 2⟩ (by decide)⟩

/-- C1: the Identity Resolver's retry is not bounded by one.  On an upstream
that signals rate-limit on the first two attempts and succeeds on the third,
`getUserId` succeeds with the looked-up id after 3 POST attempts and
2 × 3000 ms of backoff — the recursive self-call re-enters the whole
function, so a lookup that is rate-limited twice in a row is retried again
instead of failing as the `retry once` comment (line 74) and the spec
require. -/
theorem getUserId_retries_beyond_one :
    getUserId "alice" [.rateLimited, .rateLimited, .success [42]] =
      some ⟨.ok 42, 3, 6000⟩ := by decide

/-- Counterexample for C4 as stated: when the upstream returns an empty
result set, the error the resolver throws is not the bare not-found error —
the function's own catch block wraps it in the same
`Failed to get user ID …` wrapping it applies to every other failure. -/
theorem getUserId_notFound_is_wrapped_cex :
    getUserId "alice" [.success []] =
      some ⟨.error (wrapMsg "alice" (notFoundMsg "alice")), 1, 0⟩ ∧
    wrapMsg "alice" (notFoundMsg "alice") ≠ notFoundMsg "alice" := by decide

/-- C4 (amended): when the upstream lookup returns an empty result set the
resolver fails on the first attempt with the generic resolution wrapping
applied to the not-found cause (`Failed to get user ID for "name": User
"name" not found`) — the same wrapping applied to any other upstream
failure — and the background check surfaces that single error with the fetch
state untouched: no aggregation call is attempted for that name. -/
theorem getUserId_empty_result_fails_no_aggregation (username : String)
    (rest : List LookupResp) (upstream : Nat → GetResp) (nowMs : Int)
    (s : FetchSt) :
    getUserId username (.success [] :: rest) =
      some ⟨.error (wrapMsg username (notFoundMsg username)), 1, 0⟩ ∧
    runBackgroundCheck (.success [] :: rest) upstream username nowMs s =
      some (.error (wrapMsg username (notFoundMsg username)), s) := by
  exact ⟨rfl, rfl⟩

/-- Counterexample for C5 as stated: on a profile with a negative friend
count the evaluator does not fail — there is no validation and no
`InvalidInputError` anywhere in it — it produces a complete embed in which
the negative count merely fails its criterion. -/
theorem evaluator_accepts_negative_cex :
    createResultsEmbed "alice" 100 (-1) 5 =
      { title := "Background Check - alice"
        color := 0xFF0000
        fields := [
          ("Account Age", "✅ 100 days (min 90)"),
          ("Friends", "❌ -1 friends (min 20)"),
          ("Groups", "❌ 5 groups (min 30)"),
          ("Overall Status", "🔴 FAILED")]
        footer := "Background Check System" } := by decide

/-- C5 (amended): the Policy Evaluator performs no input validation and has
no failure modes at all: every profile, including one with a negative friend
or group count, is evaluated totally, a complete four-field embed is always
produced, and a negative count simply fails its (positive-threshold)
criterion, making the overall verdict fail. -/
theorem evaluator_total_no_validation (username : String)
    (accountAge friendsCount groupsCount : Int) :
    (createResultsEmbed username accountAge friendsCount groupsCount).fields.length = 4 ∧
    (friendsCount < 0 →
      (evalVerdicts accountAge friendsCount groupsCount).friendsMet = false ∧
      (evalVerdicts accountAge friendsCount groupsCount).passed = false) ∧
    (groupsCount < 0 →
      (evalVerdicts accountAge friendsCount groupsCount).groupsMet = false ∧
      (evalVerdicts accountAge friendsCount groupsCount).passed = false) := by
  refine ⟨rfl, fun hf => ?_, fun hg => ?_⟩
  · have h1 : ¬(minFriends ≤ friendsCount) := by simp [minFriends]; omega
    simp [evalVerdicts, h1]
  · have h1 : ¬(minGroups ≤ groupsCount) := by simp [minGroups]; omega
    simp [evalVerdicts, h1]

/-- Witness for `evaluator_total_no_validation` at a profile with both counts
negative. -/
theorem evaluator_total_no_validation_witness :
    (createResultsEmbed "alice" 100 (-1) (-2)).fields.length = 4 ∧
    ((evalVerdicts 100 (-1) (-2)).friendsMet = false ∧
      (evalVerdicts 100 (-1) (-2)).passed = false) ∧
    ((evalVerdicts 100 (-1) (-2)).groupsMet = false ∧
      (evalVerdicts 100 (-1) (-2)).passed = false) :=
  ⟨(evaluator_total_no_validation "alice" 100 (-1) (-2)).1,
   (evaluator_total_no_validation "alice" 100 (-1) (-2)).2.1 (by decide),
   (evaluator_total_no_validation "alice" 100 (-1) (-2)).2.2 (by decide)⟩

/-- C7: every criterion verdict is the inclusive comparison `measured ≥
threshold` — so measured equal to the threshold passes, for account age,
friends and groups alike — and the overall verdict holds exactly when all
three individual verdicts hold; at the exact thresholds (90, 20, 30) the
check passes. -/
theorem evalVerdicts_inclusive_and_conjunction
    (accountAge friendsCount groupsCount : Int) :
    ((evalVerdicts accountAge friendsCount groupsCount).ageMet = true ↔
      minAge ≤ accountAge) ∧
    ((evalVerdicts accountAge friendsCount groupsCount).friendsMet = true ↔
      minFriends ≤ friendsCount) ∧
    ((evalVerdicts accountAge friendsCount groupsCount).groupsMet = true ↔
      minGroups ≤ groupsCount) ∧
    ((evalVerdicts accountAge friendsCount groupsCount).passed = true ↔
      ((evalVerdicts accountAge friendsCount groupsCount).ageMet = true ∧
       (evalVerdicts accountAge friendsCount groupsCount).friendsMet = true ∧
       (evalVerdicts accountAge friendsCount groupsCount).groupsMet = true)) ∧
    (evalVerdicts 90 20 30).passed = true := by
  refine ⟨?_, ?_, ?_, ?_, by decide⟩ <;>
    simp [evalVerdicts, ge_iff_le, Bool.and_eq_true, and_assoc]

/-- The integer ceiling division used by `calculateAccountAge` coincides with
the mathematical ceiling of the exact rational quotient by `msPerDay`. -/
lemma cast_calcAge_div_eq_ceil (d : Nat) :
    (((d + msPerDay - 1) / msPerDay : ℕ) : ℤ) = ⌈(d : ℚ) / (msPerDay : ℚ)⌉ := by
  have hms : msPerDay = 86400000 := by norm_num [msPerDay]
  rw [hms]
  set c : ℕ := (d + 86400000 - 1) / 86400000 with hc
  have hA : d ≤ 86400000 * c := by omega
  have hB : 86400000 * c ≤ d + 86399999 := by omega
  have hAq : (d : ℚ) ≤ 86400000 * (c : ℚ) := by exact_mod_cast hA
  have hBq : (86400000 : ℚ) * (c : ℚ) ≤ (d : ℚ) + 86399999 := by exact_mod_cast hB
  rw [eq_comm, Int.ceil_eq_iff]
  simp only [Int.cast_natCast, Nat.cast_ofNat]
  constructor
  · rw [lt_div_iff₀ (by norm_num : (0 : ℚ) < 86400000)]
    linarith
  · rw [div_le_iff₀ (by norm_num : (0 : ℚ) < 86400000)]
    linarith

/-- C6: the computed account age is exactly the ceiling of the absolute
difference between the current time and the creation timestamp expressed in
whole days (not a truncation), and consequently a subject created any
positive fraction of a day away from the current time gets age at least 1,
never 0. -/
theorem calculateAccountAge_is_ceiling (nowMs createdMs : Int) :
    ((calculateAccountAge nowMs createdMs : ℕ) : ℤ) =
      ⌈(((nowMs - createdMs).natAbs : ℚ)) / (msPerDay : ℚ)⌉ ∧
    (nowMs ≠ createdMs → 1 ≤ calculateAccountAge nowMs createdMs) := by
  constructor
  · exact cast_calcAge_div_eq_ceil ((nowMs - createdMs).natAbs)
  · intro hne
    have hd : 1 ≤ (nowMs - createdMs).natAbs :=
      Int.natAbs_pos.mpr (sub_ne_zero.mpr hne)
    have hms : msPerDay = 86400000 := by norm_num [msPerDay]
    unfold calculateAccountAge
    rw [hms]
    omega

/-- Witness for `calculateAccountAge_is_ceiling` at a creation time one
millisecond more than a day before the current time. -/
theorem calculateAccountAge_is_ceiling_witness :
    ((calculateAccountAge 86400001 0 : ℕ) : ℤ) =
      ⌈((((86400001 : Int) - 0).natAbs : ℚ)) / (msPerDay : ℚ)⌉ ∧
    1 ≤ calculateAccountAge 86400001 0 :=
  ⟨(calculateAccountAge_is_ceiling 86400001 0).1,
   (calculateAccountAge_is_ceiling 86400001 0).2 (by decide)⟩

/-- The join of three settled promises fulfils with the triple exactly when
all three fulfilled with the respective values. -/
lemma promiseAll3_ok_iff (r1 : Except String Response) (r2 r3 : Except String Nat)
    (d : Response) (f g : Nat) :
    promiseAll3 r1 r2 r3 = .ok (d, f, g) ↔
      r1 = .ok d ∧ r2 = .ok f ∧ r3 = .ok g := by
  cases r1 <;> cases r2 <;> cases r3 <;> simp [promiseAll3]

/-- The join of three settled promises rejects with `e` exactly when the
first rejected call (in start order) rejected with `e`. -/
lemma promiseAll3_error_iff (r1 : Except String Response) (r2 r3 : Except String Nat)
    (e : String) :
    promiseAll3 r1 r2 r3 = .error e ↔
      r1 = .error e ∨
      ((∃ d, r1 = .ok d) ∧ r2 = .error e) ∨
      ((∃ d, r1 = .ok d) ∧ (∃ f, r2 = .ok f) ∧ r3 = .error e) := by
  cases r1 <;> cases r2 <;> cases r3 <;> simp [promiseAll3]

/-- C8: profile aggregation is all-or-nothing.  A fulfilled aggregation means
all three fan-out calls (details, then friends, then groups, threaded in
start order) succeeded with exactly the aggregated values; a rejected
aggregation carries the error of the first failing call; and the handler's
caller accordingly receives either that single error or a complete embed
built from all three responses — never a partially populated result. -/
theorem aggregate_all_or_nothing (upstream : Nat → GetResp) (userId : Nat)
    (s : FetchSt) :
    (∀ d f g, (aggregate upstream userId s).1 = .ok (d, f, g) →
      (getUserDetails upstream userId s).1 = .ok d ∧
      (getFriendsCount upstream userId (getUserDetails upstream userId s).2).1 = .ok f ∧
      (getGroupsCount upstream userId
        (getFriendsCount upstream userId (getUserDetails upstream userId s).2).2).1 = .ok g) ∧
    (∀ e, (aggregate upstream userId s).1 = .error e →
      (getUserDetails upstream userId s).1 = .error e ∨
      ((∃ d, (getUserDetails upstream userId s).1 = .ok d) ∧
        (getFriendsCount upstream userId (getUserDetails upstream userId s).2).1 = .error e) ∨
      ((∃ d, (getUserDetails upstream userId s).1 = .ok d) ∧
       (∃ f, (getFriendsCount upstream userId (getUserDetails upstream userId s).2).1 = .ok f) ∧
       (getGroupsCount upstream userId
         (getFriendsCount upstream userId (getUserDetails upstream userId s).2).2).1 = .error e)) ∧
    (∀ lookup username nowMs o e, getUserId username lookup = some o →
      o.result = .ok userId → (aggregate upstream userId s).1 = .error e →
      runBackgroundCheck lookup upstream username nowMs s =
        some (.error e, (aggregate upstream userId s).2)) ∧
    (∀ lookup username nowMs o d f g, getUserId username lookup = some o →
      o.result = .ok userId → (aggregate upstream userId s).1 = .ok (d, f, g) →
      runBackgroundCheck lookup upstream username nowMs s =
        some (.ok (createResultsEmbed d.name (calculateAccountAge nowMs d.created : Int)
          (f : Int) (g : Int)), (aggregate upstream userId s).2)) := by
  have hagg : (aggregate upstream userId s).1 =
      promiseAll3 (getUserDetails upstream userId s).1
        (getFriendsCount upstream userId (getUserDetails upstream userId s).2).1
        (getGroupsCount upstream userId
          (getFriendsCount upstream userId (getUserDetails upstream userId s).2).2).1 := rfl
  refine ⟨?_, ?_, ?_, ?_⟩
  · intro d f g h
    exact (promiseAll3_ok_iff _ _ _ _ _ _).mp (hagg ▸ h)
  · intro e h
    exact (promiseAll3_error_iff _ _ _ _).mp (hagg ▸ h)
  · intro lookup username nowMs o e hlk hok h
    simp [runBackgroundCheck, hlk, hok, h]
  · intro lookup username nowMs o d f g hlk hok h
    simp [runBackgroundCheck, hlk, hok, h]

/-- Witness for `aggregate_all_or_nothing`: with the friends call failing
the caller receives exactly that error, and with all calls succeeding the
caller receives the complete embed. -/
theorem aggregate_all_or_nothing_witness :
    runBackgroundCheck [.success [5]]
        (fun k => if k = 1 then GetResp.fail "boom" else GetResp.success ⟨"bob", 0, 7⟩)
        "alice" 0 ⟨[], 0, 0⟩ =
      some (.error "boom",
        (aggregate (fun k => if k = 1 then GetResp.fail "boom"
          else GetResp.success ⟨"bob", 0, 7⟩) 5 ⟨[], 0, 0⟩).2) ∧
    runBackgroundCheck [.success [5]]
        (fun _ => GetResp.success ⟨"bob", 0, 7⟩) "alice" 0 ⟨[], 0, 0⟩ =
      some (.ok (createResultsEmbed "bob" (calculateAccountAge 0 0 : Int) (7 : Int) (7 : Int)),
        (aggregate (fun _ => GetResp.success ⟨"bob", 0, 7⟩) 5 ⟨[], 0, 0⟩).2) :=
  ⟨(aggregate_all_or_nothing
      (fun k => if k = 1 then GetResp.fail "boom" else GetResp.success ⟨"bob", 0, 7⟩)
      5 ⟨[], 0, 0⟩).2.2.1 [.success [5]] "alice" 0 ⟨.ok 5, 1, 0⟩ "boom"
      (by decide) rfl (by decide),
   (aggregate_all_or_nothing (fun _ => GetResp.success ⟨"bob", 0, 7⟩)
      5 ⟨[], 0, 0⟩).2.2.2 [.success [5]] "alice" 0 ⟨.ok 5, 1, 0⟩
      ⟨"bob", 0, 7⟩ 7 7 (by decide) rfl (by decide)⟩

end BgcBot
